import Mathlib

/-! Verification of the cangjie-report analysis pipeline (src/api/refresh.rs).

Strings of the Rust code are modelled as lists of characters.  Filesystem,
git, subprocess and Redis effects are modelled by explicit environment
records holding each external call's outcome, so every function of the
source becomes a pure Lean function of its environment. -/

/-- The path separator character used by the code (Unix paths). -/
def sep : Char := '/'

/-- `repo_path_with_slash` of `handler` (refresh.rs:349-353): the working-copy
path, with a trailing separator appended when it does not already end in
one. -/
def withSlash (w : List Char) : List Char :=
  if w.getLast? = some sep then w else w ++ [sep]

/-- Path normalization applied to one finding's `file` field by `handler`
(refresh.rs:355-370): strip `repo_path_with_slash` when it is a prefix of the
file path; else strip the bare working-copy path and then one remaining
leading separator, when the bare path is a prefix; else leave the file path
unchanged. -/
def normalizeFile (w f : List Char) : List Char :=
  if withSlash w <+: f then f.drop (withSlash w).length
  else if w <+: f then
    if (f.drop w.length).head? = some sep then (f.drop w.length).tail
    else f.drop w.length
  else f

/-- `DefectLevel` (refresh.rs:22-28). -/
inductive DefectLevel where
  | mandatory
  | suggestions
deriving DecidableEq

/-- `AnalysisResultItem` (refresh.rs:30-47): one analyzer finding. -/
structure AnalysisResultItem where
  file : List Char
  line : Int
  column : Int
  end_line : Int
  end_column : Int
  analyzer_name : List Char
  description : List Char
  defect_level : DefectLevel
  defect_type : List Char
  language : List Char
deriving DecidableEq

/-- The path-normalization pass of `handler` (refresh.rs:355-370), the spec's
`normalizePaths(findings, workingCopyPath)`. -/
def normalizePaths (findings : List AnalysisResultItem) (w : List Char) :
    List AnalysisResultItem :=
  findings.map (fun item => { item with file := normalizeFile w item.file })

/-- `w` occurs in `f` at no position other than the start: at every positive
offset into `f`, `w` is not a prefix of the remainder. -/
def onlyLeadingOcc (w f : List Char) : Bool :=
  (List.range (f.length + 1)).all fun k => k == 0 || !(decide (w <+: f.drop k))

lemma onlyLeadingOcc_drop {w f : List Char} {k : Nat}
    (h : onlyLeadingOcc w f = true) (hk : 0 < k) (hk2 : k ≤ f.length) :
    ¬ w <+: f.drop k := by
  have h1 := List.all_eq_true.mp h k (List.mem_range.mpr (by omega))
  have hk0 : (k == 0) = false := by simp [Nat.pos_iff_ne_zero.mp hk]
  rw [hk0, Bool.false_or, Bool.not_eq_true'] at h1
  exact of_decide_eq_false h1

lemma withSlash_of_end {w : List Char} (h : w.getLast? = some sep) :
    withSlash w = w := by
  unfold withSlash; rw [if_pos h]

lemma withSlash_of_not_end {w : List Char} (h : ¬ w.getLast? = some sep) :
    withSlash w = w ++ [sep] := by
  unfold withSlash; rw [if_neg h]

lemma pre_refl (w : List Char) : w <+: w := ⟨[], List.append_nil w⟩

lemma pre_append (w t : List Char) : w <+: w ++ t := ⟨t, rfl⟩

lemma withSlash_pre_trans {w x : List Char} (h : withSlash w <+: x) :
    w <+: x := by
  unfold withSlash at h
  split at h
  · exact h
  · exact List.IsPrefix.trans (pre_append w [sep]) h

/-- A file path that does not start with the working-copy path at all is left
unchanged by the normalization. -/
lemma normalizeFile_unchanged {w f : List Char} (h : ¬ w <+: f) :
    normalizeFile w f = f := by
  unfold normalizeFile
  rw [if_neg (fun hws => h (withSlash_pre_trans hws)), if_neg h]

/-- Provided the working-copy path is nonempty and occurs in the file path
only at its start, the normalized path no longer starts with it. -/
lemma normalizeFile_no_residual {w f : List Char} (hw : w ≠ [])
    (hocc : onlyLeadingOcc w f = true) : ¬ w <+: normalizeFile w f := by
  have hwlen : 0 < w.length := List.length_pos.mpr hw
  unfold normalizeFile
  by_cases h1 : withSlash w <+: f
  · rw [if_pos h1]
    by_cases hend : w.getLast? = some sep
    · rw [withSlash_of_end hend] at h1 ⊢
      exact onlyLeadingOcc_drop hocc hwlen h1.length_le
    · rw [withSlash_of_not_end hend] at h1 ⊢
      have hlen : w.length + 1 ≤ f.length := by simpa using h1.length_le
      simpa using onlyLeadingOcc_drop hocc (by omega) hlen
  · rw [if_neg h1]
    by_cases h2 : w <+: f
    · rw [if_pos h2]
      by_cases h3 : (f.drop w.length).head? = some sep
      · rw [if_pos h3, List.tail_drop]
        have hne : f.drop w.length ≠ [] := by
          intro he; rw [he] at h3; simp at h3
        have hpos : 0 < (f.drop w.length).length := List.length_pos.mpr hne
        rw [List.length_drop] at hpos
        exact onlyLeadingOcc_drop hocc (by omega) (by omega)
      · rw [if_neg h3]
        exact onlyLeadingOcc_drop hocc hwlen h2.length_le
    · rw [if_neg h2]; exact h2

lemma normalizeFile_idem {w f : List Char} (hw : w ≠ [])
    (hocc : onlyLeadingOcc w f = true) :
    normalizeFile w (normalizeFile w f) = normalizeFile w f :=
  normalizeFile_unchanged (normalizeFile_no_residual hw hocc)

/-- A file path equal to the working-copy path itself normalizes to the empty
path. -/
lemma normalizeFile_self (w : List Char) : normalizeFile w w = [] := by
  by_cases hend : w.getLast? = some sep
  · rw [normalizeFile, withSlash_of_end hend, if_pos (pre_refl w),
      List.drop_length]
  · rw [normalizeFile, withSlash_of_not_end hend]
    have h1 : ¬ (w ++ [sep] <+: w) := by
      intro h
      have := h.length_le
      simp at this
    rw [if_neg h1, if_pos (pre_refl w), List.drop_length]
    simp

/-- The empty path is a fixed point of the normalization. -/
lemma normalizeFile_nil (w : List Char) : normalizeFile w [] = [] := by
  by_cases hw : w = []
  · subst hw; decide
  · exact normalizeFile_unchanged
      (fun h => hw (List.length_eq_zero.mp (Nat.le_zero.mp h.length_le)))

/-- The C1 policy read literally: case (a) always appends a separator to the
working-copy path before the prefix test, also when the path already ends
with one.  Modelled from the claim's words, for comparison with the code's
`normalizeFile`. -/
def claimC1Policy (w f : List Char) : List Char :=
  if w ++ [sep] <+: f then f.drop (w ++ [sep]).length
  else if w <+: f then
    if (f.drop w.length).head? = some sep then (f.drop w.length).tail
    else f.drop w.length
  else f

/-- The amended C1 policy: as the claim, except that in case (a) the trailing
separator is appended only when the working-copy path does not already end
with one.  Written from the amended claim's words. -/
def claimC1PolicyAmended (w f : List Char) : List Char :=
  if (if w.getLast? = some sep then w else w ++ [sep]) <+: f then
    f.drop (if w.getLast? = some sep then w else w ++ [sep]).length
  else if w <+: f then
    if (f.drop w.length).head? = some sep then (f.drop w.length).tail
    else f.drop w.length
  else f

/-- C1: the code does not apply the claim's literal three-case policy: for
working-copy path `/tmp/r/` and finding path `/tmp/r//x` the code strips only
the 7-character prefix and yields `/x`, while the claim's case (a) (separator
appended unconditionally) strips 8 characters and yields `x`. -/
theorem c1_counterexample :
    normalizeFile ("/tmp/r/".data) ("/tmp/r//x".data) = "/x".data ∧
    claimC1Policy ("/tmp/r/".data) ("/tmp/r//x".data) = "x".data ∧
    normalizeFile ("/tmp/r/".data) ("/tmp/r//x".data) ≠
      claimC1Policy ("/tmp/r/".data) ("/tmp/r//x".data) := by
  decide

/-- C1 (amended): the code's normalization applies the three-case policy with
the separator appended only when missing; it agrees with the claim's literal
policy whenever the working-copy path does not already end with a separator;
the claim's concrete examples hold; and a finding path with no common prefix
is returned unchanged. -/
theorem c1_policy :
    (∀ w f, normalizeFile w f = claimC1PolicyAmended w f)
    ∧ (∀ w f, ¬ w.getLast? = some sep → normalizeFile w f = claimC1Policy w f)
    ∧ normalizeFile ("/tmp/r".data) ("/tmp/r/src/a.go".data) = "src/a.go".data
    ∧ normalizeFile ("/tmp/r/".data) ("/tmp/r/src/a.go".data) = "src/a.go".data
    ∧ (∀ w f, ¬ w <+: f → normalizeFile w f = f) := by
  refine ⟨fun w f => rfl, fun w f h => ?_, by decide, by decide,
    fun w f h => normalizeFile_unchanged h⟩
  rw [normalizeFile, claimC1Policy, withSlash_of_not_end h]

/-- Witness for C1: the policy agreement and the unchanged-path fallback at
concrete inputs. -/
theorem c1_policy_witness :
    normalizeFile ("/tmp/r".data) ("/tmp/r//x".data) =
      claimC1Policy ("/tmp/r".data) ("/tmp/r//x".data) ∧
    normalizeFile ("/a".data) ("/b/c".data) = "/b/c".data :=
  ⟨c1_policy.2.1 _ _ (by decide), c1_policy.2.2.2.2 _ _ (by decide)⟩

/-- A sample finding, used to instantiate theorems at concrete inputs. -/
def mkItem (f : List Char) : AnalysisResultItem :=
  { file := f, line := 1, column := 1, end_line := 1, end_column := 2,
    analyzer_name := "cjlint".data, description := "d".data,
    defect_level := DefectLevel.mandatory, defect_type := "t".data,
    language := "cangjie".data }

/-- C4: normalization does not guarantee that no output path starts with the
working-copy path: for working-copy path `/tmp/r` the finding path
`/tmp/r//tmp/r/x` normalizes to `/tmp/r/x`, which again starts with
`/tmp/r`. -/
theorem c4_counterexample :
    ∃ it ∈ normalizePaths [mkItem ("/tmp/r//tmp/r/x".data)] ("/tmp/r".data),
      ("/tmp/r".data) <+: it.file := by
  decide

/-- C4 (amended): when the working-copy path is nonempty and occurs in each
finding's file path at no position other than the start, no normalized file
path starts with the working-copy path. -/
theorem c4_no_residual :
    ∀ (w : List Char) (findings : List AnalysisResultItem), w ≠ [] →
      (∀ it ∈ findings, onlyLeadingOcc w it.file = true) →
      ∀ it ∈ normalizePaths findings w, ¬ w <+: it.file := by
  intro w findings hw hocc it hit
  rw [normalizePaths, List.mem_map] at hit
  obtain ⟨o, ho, rfl⟩ := hit
  exact normalizeFile_no_residual hw (hocc o ho)

/-- Witness for C4 at a concrete finding and working-copy path. -/
theorem c4_witness :
    ¬ ("/tmp/r".data) <+:
      ((normalizePaths [mkItem ("/tmp/r/src/a.go".data)] ("/tmp/r".data)).headD
        (mkItem [])).file :=
  c4_no_residual ("/tmp/r".data) [mkItem ("/tmp/r/src/a.go".data)]
    (by decide) (by decide) _ (by decide)

/-- C9: the normalization pass preserves the number and order of findings and
changes only the `file` field: every other field of the item at each position
is unchanged, and the `file` field becomes its normalized form. -/
theorem c9_frame :
    ∀ (findings : List AnalysisResultItem) (w : List Char),
      (normalizePaths findings w).length = findings.length ∧
      List.Forall₂ (fun o n =>
        n.file = normalizeFile w o.file ∧ n.line = o.line ∧
        n.column = o.column ∧ n.end_line = o.end_line ∧
        n.end_column = o.end_column ∧ n.analyzer_name = o.analyzer_name ∧
        n.description = o.description ∧ n.defect_level = o.defect_level ∧
        n.defect_type = o.defect_type ∧ n.language = o.language)
        findings (normalizePaths findings w) := by
  intro findings w
  refine ⟨by simp [normalizePaths], ?_⟩
  induction findings with
  | nil => simp [normalizePaths]
  | cons h t ih =>
    rw [normalizePaths, List.map_cons]
    exact List.Forall₂.cons
      ⟨rfl, rfl, rfl, rfl, rfl, rfl, rfl, rfl, rfl, rfl⟩ ih

/-- C10: normalization is not idempotent in general: for working-copy path
`/tmp/r`, the finding path `/tmp/r//tmp/r/x` normalizes to `/tmp/r/x` after
one pass and to `x` after a second pass. -/
theorem c10_counterexample :
    normalizePaths
        (normalizePaths [mkItem ("/tmp/r//tmp/r/x".data)] ("/tmp/r".data))
        ("/tmp/r".data) ≠
      normalizePaths [mkItem ("/tmp/r//tmp/r/x".data)] ("/tmp/r".data) := by
  decide

/-- C10 (amended): normalization is idempotent whenever the working-copy path
is nonempty and occurs in each finding's file path at no position other than
the start; moreover a path equal to the working-copy path normalizes to the
empty path, and the empty path is a fixed point. -/
theorem c10_idempotent :
    (∀ (w : List Char) (findings : List AnalysisResultItem), w ≠ [] →
      (∀ it ∈ findings, onlyLeadingOcc w it.file = true) →
      normalizePaths (normalizePaths findings w) w =
        normalizePaths findings w)
    ∧ (∀ v : List Char, normalizeFile v v = [] ∧ normalizeFile v [] = []) := by
  constructor
  · intro w findings hw hocc
    rw [normalizePaths, normalizePaths, List.map_map]
    refine List.map_congr_left ?_
    intro o ho
    have hh : onlyLeadingOcc w o.file = true := hocc o ho
    obtain ⟨fl, l1, c2, e1, e2, a1, d1, dl, dt, lg⟩ := o
    have hh2 : onlyLeadingOcc w fl = true := hh
    exact congrArg
      (fun x => AnalysisResultItem.mk x l1 c2 e1 e2 a1 d1 dl dt lg)
      (normalizeFile_idem hw hh2)
  · intro v
    exact ⟨normalizeFile_self v, normalizeFile_nil v⟩

/-- Witness for C10 at a concrete finding and working-copy path. -/
theorem c10_witness :
    normalizePaths
        (normalizePaths [mkItem ("/tmp/r/src/a.go".data)] ("/tmp/r".data))
        ("/tmp/r".data) =
      normalizePaths [mkItem ("/tmp/r/src/a.go".data)] ("/tmp/r".data) :=
  c10_idempotent.1 _ _ (by decide) (by decide)

/-- `CloneResult` (refresh.rs:98-102). -/
structure CloneResult where
  repo_path : List Char
  commit_hash : List Char
deriving DecidableEq

/-- Environment of one `clone_repository` call (refresh.rs:166-192): the
generated target path and the outcome of each external step: whether the
target directory pre-existed, whether its removal succeeded, whether
`create_dir_all` succeeded, whether the shallow clone succeeded, and whether
HEAD could be resolved to a commit. -/
structure CloneEnv where
  repoPath : List Char
  preExisting : Bool
  preRemoveOk : Bool
  createOk : Bool
  cloneOk : Bool
  headOk : Bool
  commitHash : List Char
deriving DecidableEq

/-- Outcome of `clone_repository`: an error return, a success, or a process
panic (the `.unwrap()` calls at refresh.rs:184-185). -/
inductive CloneOutcome where
  | ok (r : CloneResult)
  | err
  | panic
deriving DecidableEq

/-- True when `clone_repository` reached `create_dir_all` and it succeeded,
i.e. the working-copy directory exists on disk from that point on. -/
def cloneDirCreated (env : CloneEnv) : Bool :=
  (!env.preExisting || env.preRemoveOk) && env.createOk

/-- `clone_repository` (refresh.rs:166-192): remove a pre-existing target
directory, create the target directory, shallow-clone into it, then resolve
HEAD.  The `.unwrap()` calls at refresh.rs:184-185 make a HEAD-resolution
failure a panic, not an error return. -/
def clone_repository (env : CloneEnv) : CloneOutcome :=
  if env.preExisting && !env.preRemoveOk then .err
  else if !env.createOk then .err
  else if !env.cloneOk then .err
  else if !env.headOk then .panic
  else .ok ⟨env.repoPath, env.commitHash⟩

/-- `RepoCleanup` (refresh.rs:104-141). -/
structure RepoCleanup where
  repo_path : List Char
  cleaned : Bool
deriving DecidableEq

/-- `RepoCleanup::new` (refresh.rs:111-116). -/
def RepoCleanup.new (p : List Char) : RepoCleanup := ⟨p, false⟩

/-- `RepoCleanup::cleanup` (refresh.rs:119-128), given the outcome of its
`remove_dir_all` call: returns the new state, the number of successful
directory removals performed (0 or 1), and whether the call returned an
error. -/
def RepoCleanup.cleanup (c : RepoCleanup) (removeOk : Bool) :
    RepoCleanup × Nat × Bool :=
  if c.cleaned then (c, 0, false)
  else if removeOk then ({ c with cleaned := true }, 1, false)
  else (c, 0, true)

/-- `Drop for RepoCleanup` (refresh.rs:131-141): the same removal behaviour,
except that a removal failure is only logged. -/
def RepoCleanup.dropRun (c : RepoCleanup) (removeOk : Bool) :
    RepoCleanup × Nat :=
  if c.cleaned then (c, 0)
  else if removeOk then ({ c with cleaned := true }, 1)
  else (c, 0)

/-- A parsed TOML document, as far as `find_package_name` inspects it. -/
inductive Toml where
  | table (entries : List (List Char × Toml))
  | str (s : List Char)
  | other

/-- `toml::Value::get` on a table. -/
def Toml.get : Toml → List Char → Option Toml
  | .table es, k => List.lookup k es
  | .str _, _ => none
  | .other, _ => none

/-- `toml::Value::as_str`. -/
def Toml.asStr : Toml → Option (List Char)
  | .str s => some s
  | .table _ => none
  | .other => none

/-- The `package.name` extraction of `find_package_name`
(refresh.rs:212-216): `value.get("package").and_then(get("name"))
.and_then(as_str)`. -/
def tomlPackageName (v : Toml) : Option (List Char) :=
  ((v.get ("package".data)).bind (fun t => t.get ("name".data))).bind
    Toml.asStr

/-- The failure cases of `find_package_name` (refresh.rs:194-219). -/
inductive ManifestError where
  | notFound
  | readFail
  | parseFail
  | nameMissing
deriving DecidableEq

/-- The error strings of `find_package_name`; the detail interpolated from an
underlying io/toml error is abstracted away. -/
def manifestErrMsg : ManifestError → List Char
  | .notFound => "No cjpm.toml found".data
  | .readFail => "Failed to read cjpm.toml: ".data
  | .parseFail => "Failed to parse TOML: ".data
  | .nameMissing => "package.name not found in cjpm.toml".data

/-- Environment of one `find_package_name` call: the `**/cjpm.toml` glob
matches in traversal order, and the outcomes of reading a file and of
TOML-parsing a file's content. -/
structure ManifestEnv where
  globMatches : List (List Char)
  readFile : List Char → Option (List Char)
  parseToml : List Char → Option Toml

/-- `find_package_name` (refresh.rs:194-219): fail when there is no glob
match; else read the first match, parse it as TOML, and extract
`package.name` as a string, failing when it is absent or not a string. -/
def find_package_name (env : ManifestEnv) : Except ManifestError (List Char) :=
  match env.globMatches with
  | [] => .error .notFound
  | p :: _ =>
    match env.readFile p with
    | none => .error .readFail
    | some content =>
      match env.parseToml content with
      | none => .error .parseFail
      | some value =>
        match tomlPackageName value with
        | none => .error .nameMissing
        | some s => .ok s

/-- The failure cases of `run_cjlint` (refresh.rs:221-247). -/
inductive CjlintError where
  | spawnFail
  | exitFail (code : Int)
  | readFail
  | removeFail
deriving DecidableEq

/-- The error strings of `run_cjlint`; for a non-zero exit status the message
embeds the exit code (refresh.rs:231-236), with `-1` standing in for a
missing code. -/
def cjlintErrMsg : CjlintError → List Char
  | .spawnFail => "Failed to execute cjlint: ".data
  | .exitFail c => "cjlint command failed with exit code: ".data
      ++ (toString c).data
  | .readFail => "Failed to read cjlint output: ".data
  | .removeFail => "Failed to delete cjlint output file: ".data

/-- Environment of one `run_cjlint` call: whether the subprocess could be
spawned, its exit code (`none` models termination by signal), the content of
its output file, and the outcomes of reading and deleting that file. -/
structure CjlintEnv where
  spawnOk : Bool
  exit : Option Int
  content : List Char
  readOk : Bool
  removeOk : Bool

/-- `ExitStatus::success`: the process exited with code zero. -/
def statusSuccess (exit : Option Int) : Bool := exit == some 0

/-- `run_cjlint` (refresh.rs:221-247). -/
def run_cjlint (env : CjlintEnv) : Except CjlintError (List Char) :=
  if !env.spawnOk then .error .spawnFail
  else if !(statusSuccess env.exit) then
    .error (.exitFail (env.exit.getD (-1)))
  else if !env.readOk then .error .readFail
  else if !env.removeOk then .error .removeFail
  else .ok env.content

/-- The failure cases of `save_to_redis` (refresh.rs:249-261). -/
inductive RedisError where
  | noKvUrl
  | clientFail
  | connFail
  | setFail
deriving DecidableEq

/-- Environment of one `save_to_redis` call: the optional `KV_URL` variable
and the outcomes of client creation, connection, and the SET command. -/
structure RedisEnv where
  kvUrl : Option (List Char)
  clientOk : Bool
  connOk : Bool
  setOk : Bool
deriving DecidableEq

/-- `save_to_redis` (refresh.rs:249-261): on success it returns the key and
value written, the key being the repository URL under the `cjlint_`
namespace. -/
def save_to_redis (env : RedisEnv) (repo content : List Char) :
    Except RedisError (List Char × List Char) :=
  match env.kvUrl with
  | none => .error .noKvUrl
  | some _ =>
    if !env.clientOk then .error .clientFail
    else if !env.connOk then .error .connFail
    else if !env.setOk then .error .setFail
    else .ok ("cjlint_".data ++ repo, content)

/-- `AnalysisResult` (refresh.rs:49-55). -/
structure AnalysisResult where
  cjlint : List AnalysisResultItem
  created_at : Int
  commit : List Char
  package_name : List Char
deriving DecidableEq

/-- Environment of one `handler` request (refresh.rs:275-404): the
environments of each pipeline stage, the JSON deserialization of the
analyzer's output (`serde_json::from_str`, refresh.rs:334), the
serialization of the final result (refresh.rs:383), the outcomes of the
first and second working-copy removal attempts, and the clock. -/
structure HandlerEnv where
  cloneEnv : CloneEnv
  manifestEnv : ManifestEnv
  cjlintEnv : CjlintEnv
  parseJson : List Char → Option (List AnalysisResultItem)
  redisEnv : RedisEnv
  serialize : AnalysisResult → List Char
  removeOk1 : Bool
  removeOk2 : Bool
  now : Int

/-- Observable outcome of one `handler` request: the response envelope
(status, success flag, message, error, data), whether each pipeline stage
was reached, whether the working-copy directory was created on disk, and how
many times it was successfully removed.  `panicked` marks the process crash
caused by the HEAD `.unwrap()` (refresh.rs:184-185); a panicked trace's
response fields are meaningless and its status is 0. -/
structure HandlerTrace where
  panicked : Bool
  status : Nat
  success : Bool
  message : Option (List Char)
  error : Option (List Char)
  data : Option AnalysisResult
  cloneRan : Bool
  findPackageRan : Bool
  cjlintRan : Bool
  redisRan : Bool
  dirCreated : Bool
  removals : Nat

/-- `handler` (refresh.rs:275-404): validate the `repo` query parameter,
clone, locate the package name, run the analyzer, parse and normalize its
findings, store the serialized result in Redis, and release the working
copy.  On every early error return after the clone succeeded, the
`RepoCleanup` guard's `Drop` performs the removal; on the success path the
explicit `cleanup` call performs it and the `Drop` afterwards is a no-op. -/
def handler (repoParam : Option (List Char)) (env : HandlerEnv) :
    HandlerTrace :=
  match repoParam with
  | none =>
    { panicked := false, status := 400, success := false, message := none,
      error := some ("repo query parameter is required".data), data := none,
      cloneRan := false, findPackageRan := false, cjlintRan := false,
      redisRan := false, dirCreated := false, removals := 0 }
  | some repo =>
    match clone_repository env.cloneEnv with
    | .panic =>
      { panicked := true, status := 0, success := false, message := none,
        error := none, data := none, cloneRan := true,
        findPackageRan := false, cjlintRan := false, redisRan := false,
        dirCreated := cloneDirCreated env.cloneEnv, removals := 0 }
    | .err =>
      { panicked := false, status := 500, success := false, message := none,
        error := some ("Failed to clone repository: ".data), data := none,
        cloneRan := true, findPackageRan := false, cjlintRan := false,
        redisRan := false, dirCreated := cloneDirCreated env.cloneEnv,
        removals := 0 }
    | .ok cres =>
      match find_package_name env.manifestEnv with
      | .error e =>
        { panicked := false, status := 500, success := false,
          message := none,
          error := some ("Failed to find package name: ".data
            ++ manifestErrMsg e),
          data := none, cloneRan := true, findPackageRan := true,
          cjlintRan := false, redisRan := false,
          dirCreated := cloneDirCreated env.cloneEnv,
          removals :=
            ((RepoCleanup.new cres.repo_path).dropRun env.removeOk1).2 }
      | .ok pkgName =>
        match run_cjlint env.cjlintEnv with
        | .error e =>
          { panicked := false, status := 500, success := false,
            message := none,
            error := some ("Failed to run cjlint: ".data ++ cjlintErrMsg e),
            data := none, cloneRan := true, findPackageRan := true,
            cjlintRan := true, redisRan := false,
            dirCreated := cloneDirCreated env.cloneEnv,
            removals :=
              ((RepoCleanup.new cres.repo_path).dropRun env.removeOk1).2 }
        | .ok content =>
          match env.parseJson content with
          | none =>
            { panicked := false, status := 500, success := false,
              message := none,
              error := some ("Failed to parse cjlint output: ".data),
              data := none, cloneRan := true, findPackageRan := true,
              cjlintRan := true, redisRan := false,
              dirCreated := cloneDirCreated env.cloneEnv,
              removals :=
                ((RepoCleanup.new cres.repo_path).dropRun env.removeOk1).2 }
          | some items =>
            let result : AnalysisResult :=
              { cjlint := normalizePaths items cres.repo_path,
                created_at := env.now, commit := cres.commit_hash,
                package_name := pkgName }
            match save_to_redis env.redisEnv repo (env.serialize result) with
            | .error _ =>
              { panicked := false, status := 500, success := false,
                message := none,
                error := some ("Failed to save to Redis: ".data),
                data := none, cloneRan := true, findPackageRan := true,
                cjlintRan := true, redisRan := true,
                dirCreated := cloneDirCreated env.cloneEnv,
                removals :=
                  ((RepoCleanup.new cres.repo_path).dropRun env.removeOk1).2 }
            | .ok _ =>
              { panicked := false, status := 200, success := true,
                message := some ("Analysis completed successfully".data),
                error := none, data := some result, cloneRan := true,
                findPackageRan := true, cjlintRan := true, redisRan := true,
                dirCreated := cloneDirCreated env.cloneEnv,
                removals :=
                  ((RepoCleanup.new cres.repo_path).cleanup
                    env.removeOk1).2.1
                  + ((((RepoCleanup.new cres.repo_path).cleanup
                      env.removeOk1).1).dropRun env.removeOk2).2 }

/-- C2: after a successful clone, if the removal call itself succeeds, the
working-copy directory is removed exactly once on every execution path of
the request, and a release attempted on an already-cleaned guard is a no-op
(no second removal, no error). -/
theorem c2_exactly_once :
    ∀ (repo : List Char) (env : HandlerEnv) (r : CloneResult),
      clone_repository env.cloneEnv = CloneOutcome.ok r →
      env.removeOk1 = true →
      (handler (some repo) env).removals = 1 ∧
      (∀ (c : RepoCleanup) (b : Bool), c.cleaned = true →
        c.cleanup b = (c, 0, false) ∧ c.dropRun b = (c, 0)) := by
  intro repo env r hclone hrm
  refine ⟨?_, fun c b hc =>
    ⟨by simp [RepoCleanup.cleanup, hc], by simp [RepoCleanup.dropRun, hc]⟩⟩
  simp only [handler, hclone]
  repeat' split
  all_goals
    simp [RepoCleanup.cleanup, RepoCleanup.dropRun, RepoCleanup.new, hrm]

/-- A clone environment in which every external step succeeds. -/
def okCloneEnv : CloneEnv where
  repoPath := "/tmp/cjrepo_a".data
  preExisting := false
  preRemoveOk := true
  createOk := true
  cloneOk := true
  headOk := true
  commitHash := "h".data

/-- A manifest environment with one match declaring package name `demo`. -/
def okManifestEnv : ManifestEnv where
  globMatches := ["/tmp/cjrepo_a/cjpm.toml".data]
  readFile := fun _ => some ("m".data)
  parseToml := fun _ => some (Toml.table [("package".data,
    Toml.table [("name".data, Toml.str ("demo".data))])])

/-- An analyzer environment in which the subprocess exits with code 0. -/
def okCjlintEnv : CjlintEnv where
  spawnOk := true
  exit := some 0
  content := "[]".data
  readOk := true
  removeOk := true

/-- An analyzer environment in which the subprocess exits with code 2. -/
def exit2CjlintEnv : CjlintEnv where
  spawnOk := true
  exit := some 2
  content := []
  readOk := true
  removeOk := true

/-- A Redis environment in which every step succeeds. -/
def okRedisEnv : RedisEnv where
  kvUrl := some ("redis".data)
  clientOk := true
  connOk := true
  setOk := true

/-- A request environment in which every external step succeeds. -/
def okHandlerEnv : HandlerEnv where
  cloneEnv := okCloneEnv
  manifestEnv := okManifestEnv
  cjlintEnv := okCjlintEnv
  parseJson := fun _ => some []
  redisEnv := okRedisEnv
  serialize := fun _ => "s".data
  removeOk1 := true
  removeOk2 := true
  now := 0

/-- Witness for C2: in the all-success environment the request performs
exactly one removal. -/
theorem c2_witness : (handler (some ("u".data)) okHandlerEnv).removals = 1 :=
  (c2_exactly_once ("u".data) okHandlerEnv
    ⟨"/tmp/cjrepo_a".data, "h".data⟩ (by decide) rfl).1

/-- C2 is false as stated: when the clone itself fails after the temporary
directory was created, no `RepoCleanup` guard exists yet, so the directory
is created but never removed. -/
theorem c2_counterexample :
    (handler (some ("u".data))
      { okHandlerEnv with
        cloneEnv := { okCloneEnv with cloneOk := false } }).dirCreated
      = true ∧
    (handler (some ("u".data))
      { okHandlerEnv with
        cloneEnv := { okCloneEnv with cloneOk := false } }).removals = 0 := by
  constructor <;> rfl

/-- C3: when the shallow clone succeeds but HEAD cannot be resolved,
`clone_repository` panics (the `.unwrap()` at refresh.rs:184-185) instead of
returning a `CloneError` value. -/
theorem c3_head_resolution_panics :
    clone_repository { okCloneEnv with headOk := false }
      = CloneOutcome.panic := by
  decide

/-- C5: a spawned analyzer that exits with a non-zero code makes `run_cjlint`
fail with an error whose message embeds that exit code, and the request's
store stage is never reached: no cache write occurs and the response is a
500 whose error text contains the exit code. -/
theorem c5_nonzero_exit :
    ∀ (repo : List Char) (env : HandlerEnv) (r : CloneResult)
      (name : List Char) (c : Int),
      clone_repository env.cloneEnv = CloneOutcome.ok r →
      find_package_name env.manifestEnv = Except.ok name →
      env.cjlintEnv.spawnOk = true →
      env.cjlintEnv.exit = some c → c ≠ 0 →
      run_cjlint env.cjlintEnv = Except.error (CjlintError.exitFail c) ∧
      (toString c).data <:+: cjlintErrMsg (CjlintError.exitFail c) ∧
      (handler (some repo) env).redisRan = false ∧
      (handler (some repo) env).status = 500 ∧
      ∃ m, (handler (some repo) env).error = some m ∧
        (toString c).data <:+: m := by
  intro repo env r name c hclone hfind hspawn hexit hc
  have hsucc : statusSuccess env.cjlintEnv.exit = false := by
    rw [hexit]; simp [statusSuccess, hc]
  have hrun : run_cjlint env.cjlintEnv
      = Except.error (CjlintError.exitFail c) := by
    rw [run_cjlint, hspawn, hsucc, hexit]
    simp
  have hh : handler (some repo) env =
      { panicked := false, status := 500, success := false, message := none,
        error := some ("Failed to run cjlint: ".data
          ++ cjlintErrMsg (CjlintError.exitFail c)),
        data := none, cloneRan := true, findPackageRan := true,
        cjlintRan := true, redisRan := false,
        dirCreated := cloneDirCreated env.cloneEnv,
        removals :=
          ((RepoCleanup.new r.repo_path).dropRun env.removeOk1).2 } := by
    simp only [handler, hclone, hfind, hrun]
  refine ⟨hrun, ⟨"cjlint command failed with exit code: ".data, [],
    by simp [cjlintErrMsg]⟩, ?_⟩
  rw [hh]
  exact ⟨rfl, rfl,
    ⟨"Failed to run cjlint: ".data ++ cjlintErrMsg (CjlintError.exitFail c),
      rfl,
      ⟨"Failed to run cjlint: ".data
        ++ "cjlint command failed with exit code: ".data, [],
        by simp [cjlintErrMsg]⟩⟩⟩

/-- Witness for C5: with exit code 2 the analyzer stage fails, the store
stage is not reached, and the error text contains the code. -/
theorem c5_witness :
    run_cjlint exit2CjlintEnv = Except.error (CjlintError.exitFail 2) ∧
    (toString (2 : Int)).data <:+: cjlintErrMsg (CjlintError.exitFail 2) ∧
    (handler (some ("u".data))
      { okHandlerEnv with cjlintEnv := exit2CjlintEnv }).redisRan = false ∧
    (handler (some ("u".data))
      { okHandlerEnv with cjlintEnv := exit2CjlintEnv }).status = 500 ∧
    ∃ m, (handler (some ("u".data))
        { okHandlerEnv with cjlintEnv := exit2CjlintEnv }).error = some m ∧
      (toString (2 : Int)).data <:+: m :=
  c5_nonzero_exit ("u".data) { okHandlerEnv with cjlintEnv := exit2CjlintEnv }
    ⟨"/tmp/cjrepo_a".data, "h".data⟩ ("demo".data) 2
    (by decide) rfl rfl rfl (by decide)

/-- C6: `find_package_name` fails with the manifest-not-found error (message
`No cjpm.toml found`) when the recursive search yields no match; with one or
more matches it reads and parses the first match and returns the string
value of `name` under the `package` section, failing when that field is
absent or not a string. -/
theorem c6_find_package_name :
    ∀ (env : ManifestEnv) (p : List Char) (rest : List (List Char))
      (content : List Char) (value : Toml),
      (env.globMatches = [] →
        find_package_name env = Except.error ManifestError.notFound ∧
        manifestErrMsg ManifestError.notFound = "No cjpm.toml found".data)
      ∧ (env.globMatches = p :: rest → env.readFile p = some content →
          env.parseToml content = some value →
          (∀ s, tomlPackageName value = some s →
            find_package_name env = Except.ok s)
          ∧ (tomlPackageName value = none →
              find_package_name env
                = Except.error ManifestError.nameMissing)) := by
  intro env p rest content value
  constructor
  · intro h
    rw [find_package_name, h]
    exact ⟨rfl, rfl⟩
  · intro hm hr hp
    constructor
    · intro s hs
      simp only [find_package_name, hm, hr, hp, hs]
    · intro hn
      simp only [find_package_name, hm, hr, hp, hn]

/-- A manifest environment with no glob match. -/
def emptyManifestEnv : ManifestEnv where
  globMatches := []
  readFile := fun _ => none
  parseToml := fun _ => none

/-- The parsed manifest used by the C6 witness. -/
def demoToml : Toml :=
  Toml.table [("package".data, Toml.table [("name".data,
    Toml.str ("demo".data))])]

/-- Witness for C6: zero matches fail with the not-found error, and the
all-success manifest environment returns the declared package name. -/
theorem c6_witness :
    find_package_name emptyManifestEnv
      = Except.error ManifestError.notFound ∧
    find_package_name okManifestEnv = Except.ok ("demo".data) :=
  ⟨((c6_find_package_name emptyManifestEnv [] [] [] demoToml).1 rfl).1,
    ((c6_find_package_name okManifestEnv ("/tmp/cjrepo_a/cjpm.toml".data) []
      ("m".data) demoToml).2 rfl rfl rfl).1 ("demo".data) (by decide)⟩

/-- C7: a request without the `repo` query parameter yields status 400 with
`success = false` and error text `repo query parameter is required`, and no
pipeline stage — clone, manifest lookup, analyzer, cache write — runs; in
particular no working-copy directory is created or removed. -/
theorem c7_missing_repo :
    ∀ env : HandlerEnv,
      (handler none env).status = 400 ∧
      (handler none env).success = false ∧
      (handler none env).error
        = some ("repo query parameter is required".data) ∧
      (handler none env).message = none ∧
      (handler none env).data = none ∧
      (handler none env).cloneRan = false ∧
      (handler none env).findPackageRan = false ∧
      (handler none env).cjlintRan = false ∧
      (handler none env).redisRan = false ∧
      (handler none env).dirCreated = false ∧
      (handler none env).removals = 0 :=
  fun _ => ⟨rfl, rfl, rfl, rfl, rfl, rfl, rfl, rfl, rfl, rfl, rfl⟩

/-- C8: `save_to_redis` writes the serialized result under the key
`cjlint_<repoUrl>`; it fails when `KV_URL` is not set, when the client
cannot be created or the connection not established, or when the SET command
errors — and those are the only failure causes. -/
theorem c8_store :
    ∀ (env : RedisEnv) (repo content : List Char),
      (env.kvUrl = none →
        save_to_redis env repo content = Except.error RedisError.noKvUrl)
      ∧ (∀ u, env.kvUrl = some u → env.clientOk = true → env.connOk = true →
          env.setOk = true →
          save_to_redis env repo content
            = Except.ok ("cjlint_".data ++ repo, content))
      ∧ (∀ kv, save_to_redis env repo content = Except.ok kv →
          kv.1 = "cjlint_".data ++ repo ∧ kv.2 = content)
      ∧ ((∃ kv, save_to_redis env repo content = Except.ok kv) ↔
          env.kvUrl ≠ none ∧ env.clientOk = true ∧ env.connOk = true ∧
            env.setOk = true) := by
  intro env repo content
  obtain ⟨kv, cl, co, so⟩ := env
  cases kv <;> cases cl <;> cases co <;> cases so <;>
    simp [save_to_redis]

/-- Witness for C8 at concrete environments: the successful write stores the
namespaced key, and a missing `KV_URL` fails. -/
theorem c8_witness :
    save_to_redis okRedisEnv ("u".data) ("v".data)
      = Except.ok ("cjlint_u".data, "v".data) ∧
    save_to_redis { okRedisEnv with kvUrl := none } ("u".data) ("v".data)
      = Except.error RedisError.noKvUrl :=
  ⟨((c8_store okRedisEnv ("u".data) ("v".data)).2.1 ("redis".data)
      rfl rfl rfl rfl).trans rfl,
    (c8_store { okRedisEnv with kvUrl := none } ("u".data) ("v".data)).1 rfl⟩
